import Mathlib

/-!
Verification development for the rock-paper-scissors room server.

The server keeps a registry of rooms behind one exclusive lock.  Each room
holds a set of connected clients, a game-active flag, the moves submitted in
the current sub-round and the set of active players.  We embed the registry
state and every lock-protected operation of `join_room.rs` and
`rooms_stream.rs` as pure Lean functions from a state to a new state plus the
list of messages handed to client / watcher delivery channels.

Conventions of the embedding:
* `Uuid` client and watcher ids become `Nat` (uuid generation is external;
  only freshness and equality of ids matter).
* `HashMap` / `HashSet` become association lists / lists of keys; insertion
  replaces any previous binding of the key, mirroring `HashMap::insert`.
* The three move tokens are the inductive `Move`; the string validation
  `matches!(choice, "rock" | "paper" | "scissors")` becomes `parseChoice`.
* Every `client_tx.send` / `watcher_tx.send` / socket send becomes an entry
  of the returned event list, tagged with its destination.
-/

/-- The three canonical move tokens `"rock"`, `"paper"`, `"scissors"`. -/
inductive Move where
  | rock
  | paper
  | scissors
deriving DecidableEq, Repr

instance : Fintype Move :=
  ⟨⟨{Move.rock, Move.paper, Move.scissors}, by decide⟩, by intro x; cases x <;> decide⟩

/-- The cyclic rule: rock beats scissors, scissors beats paper, paper beats rock. -/
def beats : Move → Move → Bool
  | Move.rock, Move.scissors => true
  | Move.scissors, Move.paper => true
  | Move.paper, Move.rock => true
  | _, _ => false

/-- Outcome of a completed sub-round (`enum Outcome` in `join_room.rs`).
The moves payload keeps ids as `Nat` (the source stringifies them). -/
inductive Outcome where
  | Tie (moves : List (Nat × Move))
  | MultiWinners (winners : List Nat) (moves : List (Nat × Move))
  | SingleWinner (winner : Nat) (moves : List (Nat × Move))
deriving DecidableEq, Repr

/-- Association-list lookup, modelling `HashMap::get`. -/
def lookupKey {κ α : Type} [DecidableEq κ] (l : List (κ × α)) (k : κ) : Option α :=
  (l.find? (fun p => decide (p.1 = k))).map (fun p => p.2)

/-- Association-list insert, modelling `HashMap::insert`: the key gets exactly
one binding, namely the new value. -/
def insertKey {κ α : Type} [DecidableEq κ] (l : List (κ × α)) (k : κ) (v : α) : List (κ × α) :=
  (k, v) :: l.filter (fun p => decide (p.1 ≠ k))

/-- Association-list removal, modelling `HashMap::remove`. -/
def eraseKey {κ α : Type} [DecidableEq κ] (l : List (κ × α)) (k : κ) : List (κ × α) :=
  l.filter (fun p => decide (p.1 ≠ k))

/-- Key-set insert, modelling `HashMap::insert` / `HashSet::insert` viewed on
the key set only (re-inserting an existing key leaves the set unchanged). -/
def insertId (l : List Nat) (x : Nat) : List Nat :=
  if x ∈ l then l else l ++ [x]

/-- Key removal for id lists, modelling `HashMap::remove` / `HashSet::remove`. -/
def eraseId (l : List Nat) (x : Nat) : List Nat :=
  l.filter (fun y => decide (y ≠ x))

/-- The set of distinct tokens submitted by active players
(the `unique : HashSet<&str>` of `compute_round_outcome`). -/
def uniqueTokens (active : List Nat) (moves : List (Nat × Move)) : Finset Move :=
  (active.filterMap (fun pid => lookupKey moves pid)).toFinset

/-- The per-player move snapshot sent in every outcome payload
(the `moves_map` of `compute_round_outcome`). -/
def movesSnapshot (active : List Nat) (moves : List (Nat × Move)) : List (Nat × Move) :=
  active.filterMap (fun pid => (lookupKey moves pid).map (fun m => (pid, m)))

/-- Model of `str::to_lowercase()` (character-wise lowering suffices for the
command and token strings compared here). -/
def strToLower (s : String) : String := String.mk (s.data.map Char.toLower)

/-- The move-token validation of the `"move"` handler: the lowercased choice
must be one of the three canonical tokens
(`matches!(choice.as_str(), "rock" | "paper" | "scissors")`). -/
def parseChoice (c : String) : Option Move :=
  if c = "rock" then some Move.rock
  else if c = "paper" then some Move.paper
  else if c = "scissors" then some Move.scissors
  else none

/-- The `winning_move` if-chain of `compute_round_outcome`. -/
def winningMove (unique : Finset Move) : Option Move :=
  if Move.rock ∈ unique ∧ Move.scissors ∈ unique then some Move.rock
  else if Move.paper ∈ unique ∧ Move.rock ∈ unique then some Move.paper
  else if Move.scissors ∈ unique ∧ Move.paper ∈ unique then some Move.scissors
  else none

/-- `compute_round_outcome` of `join_room.rs` (lines 20-63): one or three
distinct tokens give a tie; otherwise the beating token is found by the
cyclic rule and the active players who chose it win. -/
def compute_round_outcome (active : List Nat) (moves : List (Nat × Move)) : Outcome :=
  if (uniqueTokens active moves).card = 1 ∨ (uniqueTokens active moves).card = 3 then
    Outcome.Tie (movesSnapshot active moves)
  else
    match winningMove (uniqueTokens active moves) with
    | some win =>
      match active.filter (fun pid => decide (lookupKey moves pid = some win)) with
      | [w] => Outcome.SingleWinner w (movesSnapshot active moves)
      | ws => Outcome.MultiWinners ws (movesSnapshot active moves)
    | none => Outcome.Tie (movesSnapshot active moves)

/-- Room state (`struct Room` in `server.rs`): the clients map is kept as its
key set, since the per-client `Tx` channels are modelled by the event lists
the operations return. -/
structure Room where
  clients : List Nat
  game_active : Bool
  moves : List (Nat × Move)
  active_players : List Nat
deriving DecidableEq, Repr

/-- Registry state (`struct AppState` in `server.rs`): rooms plus the room
watchers, kept as the watcher id set. -/
structure AppState where
  rooms : List (String × Room)
  room_watchers : List Nat
deriving DecidableEq, Repr

/-- Destination of one delivered message: a room client's channel (or the
joining socket, during admission), or a watcher's channel. -/
inductive Dest where
  | client (id : Nat)
  | watcher (id : Nat)
deriving DecidableEq, Repr

/-- One outgoing message, mirroring the response structs of `responses.rs`.
`closeConn` models `Message::Close` sent to a rejected joiner. -/
inductive Event where
  | joinLeave (success : Bool) (room_id : Option String) (message : String) (my_id : Option Nat)
  | roomList (rooms : List (String × Nat))
  | gameStarted (room_id : String) (players : List Nat)
  | roundResult (room_id : String) (tie : Bool) (winners : List Nat) (moves : List (Nat × Move))
  | rematch (room_id : String) (next_players : List Nat) (reason : String) (moves : List (Nat × Move))
  | error (room_id : Option String) (message : String) (my_id : Option Nat)
  | raw (text : String)
  | closeConn
deriving DecidableEq, Repr

/-- `const MAX_PLAYERS_PER_ROOM: usize = 10`. -/
def MAX_PLAYERS_PER_ROOM : Nat := 10

/-- Message text of the capacity rejection. -/
def roomFullMessage : String := s!"Room is full (max {MAX_PLAYERS_PER_ROOM} players)"

/-- Message text of the join broadcast. -/
def joinMessage (cid : Nat) (rid : String) : String := s!"Client {cid} joined room {rid}"

/-- Message text of the leave broadcast. -/
def leaveMessage (cid : Nat) (rid : String) : String := s!"Client {cid} left room {rid}"

/-- The room a fresh `entry(..).or_insert_with(..)` creates. -/
def emptyRoom : Room :=
  { clients := [], game_active := false, moves := [], active_players := [] }

/-- The room census handed to every watcher: each room id with its live
member count (`rooms_snapshot` in `join_room.rs` / `rooms_stream.rs`). -/
def roomCensus (s : AppState) : List (String × Nat) :=
  s.rooms.map (fun p => (p.1, p.2.clients.length))

/-- Census messages for all registered watchers. -/
def watcherEvents (s : AppState) : List (Dest × Event) :=
  s.room_watchers.map (fun w => (Dest.watcher w, Event.roomList (roomCensus s)))

/-- The admission critical section of `handle_join_room` (lines 78-121):
look up or create the room; reject and close when the room is full, otherwise
insert the client, broadcast the join notice to every room member (with each
recipient's own id) and send the fresh census to every watcher. -/
def handle_join (s : AppState) (rid : String) (cid : Nat) : AppState × List (Dest × Event) :=
  match (lookupKey s.rooms rid).getD emptyRoom with
  | room =>
    if MAX_PLAYERS_PER_ROOM ≤ room.clients.length then
      (s, [(Dest.client cid, Event.joinLeave false (some rid) roomFullMessage (some cid)),
           (Dest.client cid, Event.closeConn)])
    else
      match { s with rooms := insertKey s.rooms rid ({ room with clients := insertId room.clients cid }) } with
      | s1 =>
        (s1, (insertId room.clients cid).map
               (fun c =>
                 (Dest.client c, Event.joinLeave true (some rid) (joinMessage cid rid) (some c)))
             ++ watcherEvents s1)

/-- The `"start" | "start_game"` critical section of `handle_join_room`
(lines 147-168). -/
def handle_start (s : AppState) (rid : String) (sender : Nat) : AppState × List (Dest × Event) :=
  match lookupKey s.rooms rid with
  | none => (s, [])
  | some room =>
    if room.game_active then
      (s, [(Dest.client sender, Event.error (some rid) "Game already active" (some sender))])
    else if room.clients.length < 2 then
      (s, [(Dest.client sender,
            Event.error (some rid) "Need at least 2 players to start" (some sender))])
    else
      ({ s with rooms := insertKey s.rooms rid ({ room with game_active := true, moves := [], active_players := room.clients }) },
       room.clients.map (fun c => (Dest.client c, Event.gameStarted rid room.clients)))

/-- Applying a computed outcome (lines 189-220): tie keeps the active set and
clears moves; multiple winners narrow the active set; a single winner ends
the game; each case broadcasts its payload to every room client. -/
def applyOutcome (s : AppState) (rid : String) (room : Room) :
    AppState × List (Dest × Event) :=
  match compute_round_outcome room.active_players room.moves with
  | Outcome.Tie snap =>
    ({ s with rooms := insertKey s.rooms rid ({ room with moves := [] }) },
     room.clients.map
       (fun c => (Dest.client c, Event.rematch rid room.active_players ("tie_all") snap)))
  | Outcome.MultiWinners winners snap =>
    ({ s with rooms := insertKey s.rooms rid ({ room with active_players := winners, moves := [] }) },
     room.clients.map
       (fun c => (Dest.client c, Event.rematch rid winners ("multiple_winners") snap)))
  | Outcome.SingleWinner w snap =>
    ({ s with rooms := insertKey s.rooms rid ({ room with game_active := false, active_players := [], moves := [] }) },
     room.clients.map (fun c => (Dest.client c, Event.roundResult rid false [w] snap)))

/-- The `"move"` handler (lines 169-226): normalize and validate the token
before the lock, then under the lock check the game is active and the sender
is an active player, record the move (last write wins), and when every active
player has a move resolve the sub-round in the same critical section. -/
def handle_move (s : AppState) (rid : String) (sender : Nat) (choice : String) :
    AppState × List (Dest × Event) :=
  match parseChoice (strToLower choice) with
  | none =>
    (s, [(Dest.client sender,
          Event.error (some rid) "Invalid choice, use rock|paper|scissors" (some sender))])
  | some mv =>
    match lookupKey s.rooms rid with
    | none => (s, [])
    | some room =>
      if room.game_active = false then
        (s, [(Dest.client sender, Event.error (some rid) "Game not active" (some sender))])
      else if sender ∉ room.active_players then
        (s, [(Dest.client sender,
              Event.error (some rid) "You are not active in this round" (some sender))])
      else
        if (insertKey room.moves sender mv).length = room.active_players.length then
          applyOutcome s rid ({ room with moves := insertKey room.moves sender mv })
        else
          ({ s with rooms := insertKey s.rooms rid ({ room with moves := insertKey room.moves sender mv }) },
           [])

/-- The legacy fallback (lines 236-242): text that fails JSON decoding is
broadcast verbatim to every client of the sender's room. -/
def handle_raw_text (s : AppState) (rid : String) (text : String) :
    AppState × List (Dest × Event) :=
  match lookupKey s.rooms rid with
  | none => (s, [])
  | some room => (s, room.clients.map (fun c => (Dest.client c, Event.raw text)))

/-- An inbound text frame after the JSON decoding attempt: `cmd action choice`
when the text parsed as JSON (with the extracted `action` and optional
`choice` fields, missing fields read as absent), `raw` when it did not. -/
inductive Inbound where
  | cmd (action : String) (choice : Option String)
  | raw (text : String)
deriving DecidableEq, Repr

/-- The inbound dispatch of `handle_join_room` (lines 140-243): lowercase the
action, route `start`/`start_game` and `move`, answer anything else with an
`Unknown action` error to the sender alone, and broadcast non-JSON text. -/
def handle_message (s : AppState) (rid : String) (sender : Nat) (msg : Inbound) :
    AppState × List (Dest × Event) :=
  match msg with
  | Inbound.cmd action choice =>
    if strToLower action = "start" ∨ strToLower action = "start_game" then
      handle_start s rid sender
    else if strToLower action = "move" then
      handle_move s rid sender (choice.getD (""))
    else
      (s, [(Dest.client sender, Event.error (some rid) "Unknown action" (some sender))])
  | Inbound.raw text => handle_raw_text s rid text

/-- The disconnect critical section of `handle_join_room` (lines 254-287):
remove the client, notify the remaining members, force an active game back to
idle, drop the room when empty, and send the fresh census to every watcher. -/
def handle_disconnect (s : AppState) (rid : String) (cid : Nat) :
    AppState × List (Dest × Event) :=
  match lookupKey s.rooms rid with
  | none => (s, watcherEvents s)
  | some room =>
    (fun s1 =>
      (s1, (eraseId room.clients cid).map
             (fun c => (Dest.client c, Event.joinLeave true (some rid) (leaveMessage cid rid) (some c)))
           ++ watcherEvents s1))
      { s with rooms := if (eraseId room.clients cid).isEmpty then eraseKey s.rooms rid else insertKey s.rooms rid (if room.game_active then { room with clients := eraseId room.clients cid, game_active := false, moves := [], active_players := [] } else ({ room with clients := eraseId room.clients cid })) }

/-- Watcher registration (`rooms_stream.rs` line 37). -/
def register_watcher (s : AppState) (wid : Nat) : AppState :=
  { s with room_watchers := insertId s.room_watchers wid }

/-- Watcher removal on disconnect (`rooms_stream.rs` line 63). -/
def unregister_watcher (s : AppState) (wid : Nat) : AppState :=
  { s with room_watchers := s.room_watchers.filter (fun y => decide (y ≠ wid)) }

/-- The subscription prologue of `handle_rooms_stream` (lines 20-38): send the
initial census snapshot to the new watcher once, then register it for
subsequent updates. -/
def handle_subscribe (s : AppState) (wid : Nat) : AppState × List (Dest × Event) :=
  (register_watcher s wid, [(Dest.watcher wid, Event.roomList (roomCensus s))])

/-- One observable transition of the shared registry: each constructor is one
acquisition of the registry lock by some connection or watcher task. -/
inductive Step : AppState → AppState → Prop where
  | join (s : AppState) (rid : String) (cid : Nat) : Step s (handle_join s rid cid).1
  | message (s : AppState) (rid : String) (sender : Nat) (msg : Inbound) :
      Step s (handle_message s rid sender msg).1
  | disconnect (s : AppState) (rid : String) (cid : Nat) :
      Step s (handle_disconnect s rid cid).1
  | subscribe (s : AppState) (wid : Nat) : Step s (handle_subscribe s wid).1
  | unsubscribe (s : AppState) (wid : Nat) : Step s (unregister_watcher s wid)

/-- The per-room invariant: move keys are active players, active players are
clients, and an idle room has no moves and no active players. -/
def RoomInv (r : Room) : Prop :=
  (∀ p ∈ r.moves, p.1 ∈ r.active_players) ∧
  (∀ a ∈ r.active_players, a ∈ r.clients) ∧
  (r.game_active = false → r.moves = [] ∧ r.active_players = [])

instance (r : Room) : Decidable (RoomInv r) := by
  unfold RoomInv; infer_instance

/-- The registry invariant: every room satisfies `RoomInv`. -/
def RegistryInv (s : AppState) : Prop := ∀ p ∈ s.rooms, RoomInv p.2

instance (s : AppState) : Decidable (RegistryInv s) := by
  unfold RegistryInv; infer_instance


/-- One action of a critical section executed while the registry guard is
held, transcribed from the source: a pure state operation, a non-blocking
`UnboundedSender::send` onto a delivery queue, or an awaited WebSocket send
(network I/O). -/
inductive LockedStep where
  | stateOp (desc : String)
  | queueSend (desc : String)
  | netAwait (desc : String)
deriving DecidableEq, Repr

/-- Whether a critical-section path performs an awaited network send while
the registry guard is held. -/
def hasNetAwait : List LockedStep → Bool
  | [] => false
  | LockedStep.netAwait _ :: _ => true
  | _ :: rest => hasNetAwait rest

/-- Admission section of `handle_join_room`, admit path
(join_room.rs lines 78-121). -/
def joinAdmitSteps : List LockedStep := [
  LockedStep.stateOp ("rooms.entry(room_id).or_insert_with(empty room)"),
  LockedStep.stateOp ("capacity check, below limit"),
  LockedStep.stateOp ("room.clients.insert(client_id, tx)"),
  LockedStep.queueSend ("JoinRoomResponse to every room client via client_tx.send"),
  LockedStep.stateOp ("collect rooms census snapshot"),
  LockedStep.queueSend ("RoomListResponse to every watcher via watcher_tx.send")]

/-- Admission section of `handle_join_room`, capacity-rejection path
(join_room.rs lines 78-99): two WebSocket sends are awaited while the
registry guard taken at line 79 is still held. -/
def joinRejectSteps : List LockedStep := [
  LockedStep.stateOp ("rooms.entry(room_id).or_insert_with(empty room)"),
  LockedStep.stateOp ("capacity check, at or above limit"),
  LockedStep.netAwait ("sender.send(Message::Text(json)).await at join_room.rs:95"),
  LockedStep.netAwait ("sender.send(Message::Close(None)).await at join_room.rs:97")]

/-- The `start` command section (join_room.rs lines 148-168). -/
def startSteps : List LockedStep := [
  LockedStep.stateOp ("rooms.get_mut, state checks, set game_active, moves, active_players"),
  LockedStep.queueSend ("ErrorResponse to sender or GameStartedResponse to every room client")]

/-- The `move` command section including resolution
(join_room.rs lines 177-224). -/
def moveSteps : List LockedStep := [
  LockedStep.stateOp ("rooms.get_mut, guards, moves.insert, compute_round_outcome, apply outcome"),
  LockedStep.queueSend ("ErrorResponse to sender or RematchResponse or RoundResultResponse to every room client")]

/-- The raw text broadcast section (join_room.rs lines 237-242). -/
def rawBroadcastSteps : List LockedStep := [
  LockedStep.stateOp ("rooms.get lookup"),
  LockedStep.queueSend ("text to every room client via client_tx.send")]

/-- The disconnect cleanup section (join_room.rs lines 254-287). -/
def disconnectSteps : List LockedStep := [
  LockedStep.stateOp ("clients.remove, force idle, delete empty room"),
  LockedStep.queueSend ("leave JoinRoomResponse to remaining clients"),
  LockedStep.stateOp ("collect rooms census snapshot"),
  LockedStep.queueSend ("RoomListResponse to every watcher via watcher_tx.send")]

/-- The watcher initial-snapshot section (rooms_stream.rs lines 21-32): the
snapshot is sent over the WebSocket, awaited, while the registry guard taken
at line 22 is still held. -/
def snapshotSteps : List LockedStep := [
  LockedStep.stateOp ("collect rooms census snapshot"),
  LockedStep.netAwait ("sender.send(Message::Text(init_msg)).await at rooms_stream.rs:29")]

/-- The watcher registration section (rooms_stream.rs lines 35-38). -/
def registerSteps : List LockedStep := [
  LockedStep.stateOp ("room_watchers.insert(watcher_id, tx)")]

/-- The watcher cleanup section (rooms_stream.rs lines 62-63). -/
def unregisterSteps : List LockedStep := [
  LockedStep.stateOp ("room_watchers.remove(watcher_id)")]

/-- Every acquisition of the registry lock in the source, by control path,
paired with the steps executed while the guard is held. -/
def lockedSections : List (String × List LockedStep) := [
  (("join_room admit"), joinAdmitSteps),
  (("join_room capacity rejection"), joinRejectSteps),
  (("join_room start command"), startSteps),
  (("join_room move command"), moveSteps),
  (("join_room raw broadcast"), rawBroadcastSteps),
  (("join_room disconnect cleanup"), disconnectSteps),
  (("rooms_stream initial snapshot"), snapshotSteps),
  (("rooms_stream watcher registration"), registerSteps),
  (("rooms_stream watcher cleanup"), unregisterSteps)]

example :
    compute_round_outcome [1, 2, 3]
      [(1, Move.rock), (2, Move.rock), (3, Move.rock)] =
    Outcome.Tie [(1, Move.rock), (2, Move.rock), (3, Move.rock)] := by decide

example :
    compute_round_outcome [1, 2] [(1, Move.rock), (2, Move.scissors)] =
    Outcome.SingleWinner 1 [(1, Move.rock), (2, Move.scissors)] := by decide

example :
    compute_round_outcome [1, 2, 3]
      [(1, Move.rock), (2, Move.rock), (3, Move.scissors)] =
    Outcome.MultiWinners [1, 2] [(1, Move.rock), (2, Move.rock), (3, Move.scissors)] := by
  decide

example :
    compute_round_outcome [1, 2, 3, 4]
      [(1, Move.paper), (2, Move.paper), (3, Move.rock), (4, Move.rock)] =
    Outcome.MultiWinners [1, 2]
      [(1, Move.paper), (2, Move.paper), (3, Move.rock), (4, Move.rock)] := by decide

example :
    compute_round_outcome [1, 2, 3]
      [(1, Move.rock), (2, Move.paper), (3, Move.scissors)] =
    Outcome.Tie [(1, Move.rock), (2, Move.paper), (3, Move.scissors)] := by decide

theorem lookupKey_insertKey_self {κ α : Type} [DecidableEq κ] (l : List (κ × α)) (k : κ) (v : α) :
    lookupKey (insertKey l k v) k = some v := by
  unfold lookupKey insertKey
  rw [List.find?_cons_of_pos _ (by simp)]
  rfl

theorem lookupKey_insertKey_ne {κ α : Type} [DecidableEq κ] (l : List (κ × α)) (k k' : κ)
    (v : α) (h : k' ≠ k) : lookupKey (insertKey l k v) k' = lookupKey l k' := by
  unfold lookupKey insertKey
  rw [List.find?_cons_of_neg _ (by simp [Ne.symm h]), List.find?_filter]
  have hf : (fun (a : κ × α) => decide (decide (a.1 ≠ k) = true ∧ decide (a.1 = k') = true)) =
      (fun (a : κ × α) => decide (a.1 = k')) := by
    funext a
    by_cases ha : a.1 = k'
    · simp [ha, h]
    · simp [ha]
  rw [hf]

theorem mem_insertKey {κ α : Type} [DecidableEq κ] {l : List (κ × α)} {k : κ} {v : α}
    {p : κ × α} : p ∈ insertKey l k v ↔ p = (k, v) ∨ (p ∈ l ∧ p.1 ≠ k) := by
  simp [insertKey, List.mem_filter]

theorem mem_eraseKey {κ α : Type} [DecidableEq κ] {l : List (κ × α)} {k : κ} {p : κ × α} :
    p ∈ eraseKey l k ↔ p ∈ l ∧ p.1 ≠ k := by
  simp [eraseKey, List.mem_filter]

theorem mem_of_lookupKey {κ α : Type} [DecidableEq κ] {l : List (κ × α)} {k : κ} {v : α}
    (h : lookupKey l k = some v) : (k, v) ∈ l := by
  unfold lookupKey at h
  rcases Option.map_eq_some'.mp h with ⟨p, hp, hv⟩
  have hk := List.find?_some hp
  have hmem := List.mem_of_find?_eq_some hp
  have : p = (k, v) := by
    rcases p with ⟨a, b⟩
    simp only [decide_eq_true_eq] at hk
    simp_all
  rwa [this] at hmem

theorem insertKey_insertKey {κ α : Type} [DecidableEq κ] (l : List (κ × α)) (k : κ)
    (v w : α) : insertKey (insertKey l k v) k w = insertKey l k w := by
  unfold insertKey
  rw [List.filter_cons]
  have h1 : decide ((k, v).1 ≠ k) = false := by simp
  rw [h1]
  simp only [Bool.false_eq_true, if_false, List.filter_filter]
  have h2 : (fun (a : κ × α) => decide (a.1 ≠ k) && decide (a.1 ≠ k)) =
      (fun (a : κ × α) => decide (a.1 ≠ k)) := by
    funext a
    exact Bool.and_self _
  rw [h2]

theorem length_insertKey_insertKey {κ α : Type} [DecidableEq κ] (l : List (κ × α)) (k : κ)
    (v w : α) : (insertKey (insertKey l k v) k w).length = (insertKey l k v).length := by
  rw [insertKey_insertKey]
  unfold insertKey
  simp

theorem two_card_winning :
    ∀ s : Finset Move, s.card = 2 →
      ∃ win, winningMove s = some win ∧ win ∈ s ∧ ∀ m ∈ s, m ≠ win → beats win m = true := by
  decide

theorem compute_round_outcome_two (active : List Nat) (moves : List (Nat × Move)) (win : Move)
    (hcard : (uniqueTokens active moves).card = 2)
    (hwm : winningMove (uniqueTokens active moves) = some win) :
    (∀ w, active.filter (fun pid => decide (lookupKey moves pid = some win)) = [w] →
        compute_round_outcome active moves =
          Outcome.SingleWinner w (movesSnapshot active moves)) ∧
    ((active.filter (fun pid => decide (lookupKey moves pid = some win))).length ≠ 1 →
        compute_round_outcome active moves =
          Outcome.MultiWinners
            (active.filter (fun pid => decide (lookupKey moves pid = some win)))
            (movesSnapshot active moves)) := by
  have hne : ¬((uniqueTokens active moves).card = 1 ∨ (uniqueTokens active moves).card = 3) := by
    rw [hcard]
    rintro (h | h) <;> omega
  constructor
  · intro w hw
    unfold compute_round_outcome
    rw [if_neg hne]
    simp only [hwm]
    rw [hw]
  · intro hlen
    unfold compute_round_outcome
    rw [if_neg hne]
    simp only [hwm]
    cases hfw : active.filter (fun pid => decide (lookupKey moves pid = some win)) with
    | nil => rfl
    | cons a t =>
      cases t with
      | nil =>
        rw [hfw] at hlen
        simp at hlen
      | cons b t2 => rfl

/-- C1: for active players each holding one of the three tokens, the resolver
returns a tie when one or three distinct tokens are present; with exactly two
distinct tokens it identifies the beating token by the cyclic rule and
returns `SingleWinner` when exactly one active player chose it, otherwise
`MultiWinners` of exactly the active players who chose it. -/
theorem C1_round_outcome_resolver (active : List Nat) (moves : List (Nat × Move))
    (_hnd : active.Nodup)
    (_hcover : ∀ pid ∈ active, (lookupKey moves pid).isSome = true) :
    (((uniqueTokens active moves).card = 1 ∨ (uniqueTokens active moves).card = 3) →
        compute_round_outcome active moves = Outcome.Tie (movesSnapshot active moves)) ∧
    ((uniqueTokens active moves).card = 2 →
      ∃ win, win ∈ uniqueTokens active moves ∧
        (∀ m ∈ uniqueTokens active moves, m ≠ win → beats win m = true) ∧
        (∀ pid, pid ∈ active.filter (fun pid => decide (lookupKey moves pid = some win)) ↔
            pid ∈ active ∧ lookupKey moves pid = some win) ∧
        (∀ w, active.filter (fun pid => decide (lookupKey moves pid = some win)) = [w] →
            compute_round_outcome active moves =
              Outcome.SingleWinner w (movesSnapshot active moves)) ∧
        ((active.filter (fun pid => decide (lookupKey moves pid = some win))).length ≠ 1 →
            compute_round_outcome active moves =
              Outcome.MultiWinners
                (active.filter (fun pid => decide (lookupKey moves pid = some win)))
                (movesSnapshot active moves))) := by
  constructor
  · intro h
    unfold compute_round_outcome
    rw [if_pos h]
  · intro h2
    obtain ⟨win, hwm, hmem, hbeats⟩ := two_card_winning _ h2
    obtain ⟨hsingle, hmulti⟩ := compute_round_outcome_two active moves win h2 hwm
    refine ⟨win, hmem, hbeats, ?_, hsingle, hmulti⟩
    intro pid
    rw [List.mem_filter]
    simp

theorem C1_witness :
    ([1, 2].Nodup ∧
      ∀ pid ∈ [1, 2], (lookupKey [(1, Move.rock), (2, Move.rock)] pid).isSome = true) ∧
    compute_round_outcome [1, 2] [(1, Move.rock), (2, Move.rock)] =
      Outcome.Tie (movesSnapshot [1, 2] [(1, Move.rock), (2, Move.rock)]) :=
  ⟨⟨by decide, by decide⟩,
    (C1_round_outcome_resolver [1, 2] [(1, Move.rock), (2, Move.rock)]
        (by decide) (by decide)).1 (by decide)⟩

/-- C4: `start` succeeds exactly when the room is idle with at least two
members, making the full membership active and broadcasting `game_started`
to every member; from an active game or with fewer than two members it is
rejected with an error sent to the requester alone and the state unchanged. -/
theorem C4_start_command (s : AppState) (rid : String) (sender : Nat) (room : Room)
    (hlook : lookupKey s.rooms rid = some room) :
    (room.game_active = true →
        handle_start s rid sender =
          (s, [(Dest.client sender,
                Event.error (some rid) "Game already active" (some sender))])) ∧
    (room.game_active = false → room.clients.length < 2 →
        handle_start s rid sender =
          (s, [(Dest.client sender,
                Event.error (some rid) "Need at least 2 players to start" (some sender))])) ∧
    (room.game_active = false → 2 ≤ room.clients.length →
        handle_start s rid sender =
          ({ s with rooms := insertKey s.rooms rid ({ room with game_active := true, moves := [], active_players := room.clients }) },
           room.clients.map (fun c => (Dest.client c, Event.gameStarted rid room.clients)))) := by
  refine ⟨fun h1 => ?_, fun h1 h2 => ?_, fun h1 h2 => ?_⟩ <;>
    unfold handle_start <;> simp only [hlook]
  · rw [if_pos h1]
  · rw [if_neg (by simp [h1]), if_pos h2]
  · rw [if_neg (by simp [h1]), if_neg (by omega)]

theorem C4_witness :
    lookupKey [("r1", Room.mk [1, 2] false [] [])] "r1" = some (Room.mk [1, 2] false [] []) ∧
    handle_start (AppState.mk [("r1", Room.mk [1, 2] false [] [])] []) "r1" 1 =
      (AppState.mk [("r1", Room.mk [1, 2] true [] [1, 2])] [],
       [(Dest.client 1, Event.gameStarted ("r1") [1, 2]),
        (Dest.client 2, Event.gameStarted ("r1") [1, 2])]) := by
  refine ⟨by decide, ?_⟩
  have h := (C4_start_command (AppState.mk [("r1", Room.mk [1, 2] false [] [])] []) "r1" 1
      (Room.mk [1, 2] false [] []) (by decide)).2.2 rfl (by decide)
  rw [h]
  decide

/-- C5: a join attempt on a room whose membership equals the capacity
constant 10 makes the server send that client a rejection naming the room and
a close frame, and leaves the entire registry unchanged. -/
theorem C5_capacity_reject (s : AppState) (rid : String) (cid : Nat) (room : Room)
    (hlook : lookupKey s.rooms rid = some room)
    (hfull : room.clients.length = MAX_PLAYERS_PER_ROOM) :
    handle_join s rid cid =
      (s, [(Dest.client cid, Event.joinLeave false (some rid) roomFullMessage (some cid)),
           (Dest.client cid, Event.closeConn)]) := by
  unfold handle_join
  simp only [hlook, Option.getD_some]
  rw [if_pos (le_of_eq hfull.symm)]

theorem C5_witness :
    (Room.mk [1, 2, 3, 4, 5, 6, 7, 8, 9, 10] false [] []).clients.length =
        MAX_PLAYERS_PER_ROOM ∧
    handle_join
        (AppState.mk [("rA", Room.mk [1, 2, 3, 4, 5, 6, 7, 8, 9, 10] false [] [])] []) "rA" 11 =
      (AppState.mk [("rA", Room.mk [1, 2, 3, 4, 5, 6, 7, 8, 9, 10] false [] [])] [],
       [(Dest.client 11, Event.joinLeave false (some ("rA")) roomFullMessage (some 11)),
        (Dest.client 11, Event.closeConn)]) :=
  ⟨by decide,
    C5_capacity_reject (AppState.mk [("rA", Room.mk [1, 2, 3, 4, 5, 6, 7, 8, 9, 10] false [] [])] [])
      "rA" 11 (Room.mk [1, 2, 3, 4, 5, 6, 7, 8, 9, 10] false [] []) (by decide) (by decide)⟩

/-- C7: a JSON message whose action is not a known command yields a single
error event to the sender alone, and non-JSON text is broadcast verbatim to
every member of the sender's room; in both cases the registry is unchanged. -/
theorem C7_protocol_errors (s : AppState) (rid : String) (sender : Nat) (action : String)
    (choice : Option String) (text : String) (room : Room)
    (hlook : lookupKey s.rooms rid = some room)
    (h1 : strToLower action ≠ "start") (h2 : strToLower action ≠ "start_game")
    (h3 : strToLower action ≠ "move") :
    handle_message s rid sender (Inbound.cmd action choice) =
      (s, [(Dest.client sender, Event.error (some rid) "Unknown action" (some sender))]) ∧
    handle_message s rid sender (Inbound.raw text) =
      (s, room.clients.map (fun c => (Dest.client c, Event.raw text))) := by
  constructor
  · simp only [handle_message]
    rw [if_neg (by simp [h1, h2]), if_neg h3]
  · simp only [handle_message, handle_raw_text, hlook]

theorem C7_witness :
    (strToLower ("bogus") ≠ "start" ∧ strToLower ("bogus") ≠ "start_game" ∧
      strToLower ("bogus") ≠ "move") ∧
    handle_message (AppState.mk [("r1", Room.mk [1, 2] false [] [])] []) "r1" 1
        (Inbound.cmd ("bogus") none) =
      (AppState.mk [("r1", Room.mk [1, 2] false [] [])] [],
       [(Dest.client 1, Event.error (some ("r1")) "Unknown action" (some 1))]) ∧
    handle_message (AppState.mk [("r1", Room.mk [1, 2] false [] [])] []) "r1" 1
        (Inbound.raw ("hello")) =
      (AppState.mk [("r1", Room.mk [1, 2] false [] [])] [],
       [(Dest.client 1, Event.raw ("hello")), (Dest.client 2, Event.raw ("hello"))]) := by
  have h := C7_protocol_errors (AppState.mk [("r1", Room.mk [1, 2] false [] [])] []) "r1" 1
      "bogus" none ("hello") (Room.mk [1, 2] false [] []) (by decide)
      (by decide) (by decide) (by decide)
  exact ⟨⟨by decide, by decide, by decide⟩, h.1, by rw [h.2]; decide⟩

theorem length_insertKey {κ α : Type} [DecidableEq κ] (l : List (κ × α)) (k : κ) (v : α) :
    (insertKey l k v).length = (l.filter (fun p => decide (p.1 ≠ k))).length + 1 := by
  simp [insertKey]

theorem handle_move_resolves (s : AppState) (rid : String) (sender : Nat) (choice : String)
    (room : Room) (mv : Move)
    (hlook : lookupKey s.rooms rid = some room)
    (hparse : parseChoice (strToLower choice) = some mv)
    (hactive : room.game_active = true)
    (hmem : sender ∈ room.active_players)
    (hfull : (insertKey room.moves sender mv).length = room.active_players.length) :
    handle_move s rid sender choice =
      applyOutcome s rid ({ room with moves := insertKey room.moves sender mv }) := by
  simp only [handle_move, hparse, hlook]
  rw [if_neg (by simp [hactive]), if_neg (by simp [hmem]), if_pos hfull]

theorem handle_move_accepts (s : AppState) (rid : String) (sender : Nat) (choice : String)
    (room : Room) (mv : Move)
    (hlook : lookupKey s.rooms rid = some room)
    (hparse : parseChoice (strToLower choice) = some mv)
    (hactive : room.game_active = true)
    (hmem : sender ∈ room.active_players)
    (hnotfull : (insertKey room.moves sender mv).length ≠ room.active_players.length) :
    handle_move s rid sender choice =
      ({ s with rooms := insertKey s.rooms rid ({ room with moves := insertKey room.moves sender mv }) }, []) := by
  simp only [handle_move, hparse, hlook]
  rw [if_neg (by simp [hactive]), if_neg (by simp [hmem]), if_neg hnotfull]

/-- C2: when an accepted move completes the moves map, the resolver runs on
the current pair inside the same operation and its outcome is applied: a tie
keeps the active set and clears the moves, multiple winners become the new
active set, a single winner returns the room to idle; each case broadcasts
its payload (rematch `tie_all` / `multiple_winners`, or `round_result` with
`tie=false` and the single winner) to every room member. -/
theorem C2_resolution_applied (s : AppState) (rid : String) (sender : Nat) (choice : String)
    (room : Room) (mv : Move)
    (hlook : lookupKey s.rooms rid = some room)
    (hparse : parseChoice (strToLower choice) = some mv)
    (hactive : room.game_active = true)
    (hmem : sender ∈ room.active_players)
    (hfull : (insertKey room.moves sender mv).length = room.active_players.length) :
    (∀ snap,
        compute_round_outcome room.active_players (insertKey room.moves sender mv) =
            Outcome.Tie snap →
        handle_move s rid sender choice =
          ({ s with rooms := insertKey s.rooms rid ({ room with moves := [] }) },
           room.clients.map
             (fun c => (Dest.client c, Event.rematch rid room.active_players ("tie_all") snap)))) ∧
    (∀ winners snap,
        compute_round_outcome room.active_players (insertKey room.moves sender mv) =
            Outcome.MultiWinners winners snap →
        handle_move s rid sender choice =
          ({ s with rooms := insertKey s.rooms rid ({ room with active_players := winners, moves := [] }) },
           room.clients.map
             (fun c => (Dest.client c, Event.rematch rid winners ("multiple_winners") snap)))) ∧
    (∀ w snap,
        compute_round_outcome room.active_players (insertKey room.moves sender mv) =
            Outcome.SingleWinner w snap →
        handle_move s rid sender choice =
          ({ s with rooms := insertKey s.rooms rid ({ room with game_active := false, active_players := [], moves := [] }) },
           room.clients.map (fun c => (Dest.client c, Event.roundResult rid false [w] snap)))) := by
  rw [handle_move_resolves s rid sender choice room mv hlook hparse hactive hmem hfull]
  refine ⟨fun snap hout => ?_, fun winners snap hout => ?_, fun w snap hout => ?_⟩ <;>
    simp only [applyOutcome, hout]

theorem C2_witness :
    handle_move (AppState.mk [("r1", Room.mk [1, 2] true [(2, Move.rock)] [1, 2])] [])
        "r1" 1 ("rock") =
      (AppState.mk [("r1", Room.mk [1, 2] true [] [1, 2])] [],
       [(Dest.client 1,
         Event.rematch ("r1") [1, 2] "tie_all" [(1, Move.rock), (2, Move.rock)]),
        (Dest.client 2,
         Event.rematch ("r1") [1, 2] "tie_all" [(1, Move.rock), (2, Move.rock)])]) := by
  have h := (C2_resolution_applied
      (AppState.mk [("r1", Room.mk [1, 2] true [(2, Move.rock)] [1, 2])] []) "r1" 1 ("rock")
      (Room.mk [1, 2] true [(2, Move.rock)] [1, 2]) Move.rock
      (by decide) (by decide) (by decide) (by decide) (by decide)).1
      [(1, Move.rock), (2, Move.rock)] (by decide)
  rw [h]
  decide

/-- C6: a second valid move from an active player who already has an entry,
submitted before resolution triggers, produces no broadcast (neither did the
first), leaves the size of the moves map unchanged, and stores the second
token for that player (last write wins). -/
theorem C6_resubmission (s : AppState) (rid : String) (sender : Nat)
    (choice1 choice2 : String) (room : Room) (mv1 mv2 : Move)
    (hlook : lookupKey s.rooms rid = some room)
    (hp1 : parseChoice (strToLower choice1) = some mv1)
    (hp2 : parseChoice (strToLower choice2) = some mv2)
    (hactive : room.game_active = true)
    (hmem : sender ∈ room.active_players)
    (hnotfull : (insertKey room.moves sender mv1).length ≠ room.active_players.length) :
    (handle_move s rid sender choice1).2 = [] ∧
    (handle_move (handle_move s rid sender choice1).1 rid sender choice2).2 = [] ∧
    ∃ room2,
      lookupKey (handle_move (handle_move s rid sender choice1).1 rid sender choice2).1.rooms
          rid = some room2 ∧
      room2.moves.length = (insertKey room.moves sender mv1).length ∧
      lookupKey room2.moves sender = some mv2 := by
  have h1 := handle_move_accepts s rid sender choice1 room mv1 hlook hp1 hactive hmem hnotfull
  have hlook1 : lookupKey (handle_move s rid sender choice1).1.rooms rid =
      some ({ room with moves := insertKey room.moves sender mv1 }) := by
    rw [h1]
    exact lookupKey_insertKey_self _ _ _
  have hnotfull2 :
      (insertKey (insertKey room.moves sender mv1) sender mv2).length ≠
        room.active_players.length := by
    rw [insertKey_insertKey]
    rw [length_insertKey] at hnotfull ⊢
    exact hnotfull
  have h2 := handle_move_accepts (handle_move s rid sender choice1).1 rid sender choice2
      ({ room with moves := insertKey room.moves sender mv1 }) mv2 hlook1 hp2 hactive hmem
      hnotfull2
  refine ⟨by rw [h1], by rw [h2],
    ⟨{ room with moves := insertKey (insertKey room.moves sender mv1) sender mv2 }, ?_, ?_, ?_⟩⟩
  · rw [h2]
    exact lookupKey_insertKey_self _ _ _
  · rw [insertKey_insertKey, length_insertKey, length_insertKey]
  · exact lookupKey_insertKey_self _ _ _

theorem C6_witness :
    (1 ∈ ([1, 2, 3] : List Nat) ∧
      (insertKey ([] : List (Nat × Move)) 1 Move.rock).length ≠ ([1, 2, 3] : List Nat).length) ∧
    (handle_move (AppState.mk [("r1", Room.mk [1, 2, 3] true [] [1, 2, 3])] [])
        "r1" 1 ("rock")).2 = [] ∧
    (handle_move
        (handle_move (AppState.mk [("r1", Room.mk [1, 2, 3] true [] [1, 2, 3])] [])
          "r1" 1 ("rock")).1 ("r1") 1 ("paper")).2 = [] ∧
    ∃ room2,
      lookupKey
          (handle_move
            (handle_move (AppState.mk [("r1", Room.mk [1, 2, 3] true [] [1, 2, 3])] [])
              "r1" 1 ("rock")).1 ("r1") 1 ("paper")).1.rooms ("r1") = some room2 ∧
      room2.moves.length = (insertKey ([] : List (Nat × Move)) 1 Move.rock).length ∧
      lookupKey room2.moves 1 = some Move.paper :=
  ⟨⟨by decide, by decide⟩,
    C6_resubmission (AppState.mk [("r1", Room.mk [1, 2, 3] true [] [1, 2, 3])] []) "r1" 1
      "rock" "paper" (Room.mk [1, 2, 3] true [] [1, 2, 3]) Move.rock Move.paper
      (by decide) (by decide) (by decide) (by decide) (by decide) (by decide)⟩

theorem handle_join_admits (s : AppState) (rid : String) (cid : Nat) (room : Room)
    (hlook : lookupKey s.rooms rid = some room)
    (hcap : room.clients.length < MAX_PLAYERS_PER_ROOM) :
    handle_join s rid cid =
      ({ s with rooms := insertKey s.rooms rid ({ room with clients := insertId room.clients cid }) },
       (insertId room.clients cid).map
           (fun c => (Dest.client c, Event.joinLeave true (some rid) (joinMessage cid rid) (some c)))
         ++ watcherEvents
             ({ s with rooms := insertKey s.rooms rid ({ room with clients := insertId room.clients cid }) })) := by
  simp only [handle_join, hlook, Option.getD_some]
  rw [if_neg (by omega)]

/-- C10: a client may join a room whose game is active; the join changes only
that room's clients map (game flag, moves and active set untouched, joiner
not made active, other rooms and the watcher set untouched), and while the
joiner is not an active participant any valid move it submits is rejected to
it alone with the not-active-in-this-round error and no state change. -/
theorem C10_join_active_room (s : AppState) (rid : String) (cid : Nat) (room : Room)
    (choice : String) (mv : Move)
    (hlook : lookupKey s.rooms rid = some room)
    (_hactive : room.game_active = true)
    (hcap : room.clients.length < MAX_PLAYERS_PER_ROOM)
    (hfresh : cid ∉ room.clients)
    (hsub : ∀ a ∈ room.active_players, a ∈ room.clients)
    (hchoice : parseChoice (strToLower choice) = some mv) :
    lookupKey (handle_join s rid cid).1.rooms rid =
      some ({ room with clients := room.clients ++ [cid] }) ∧
    (∀ rid2, rid2 ≠ rid →
        lookupKey (handle_join s rid cid).1.rooms rid2 = lookupKey s.rooms rid2) ∧
    (handle_join s rid cid).1.room_watchers = s.room_watchers ∧
    cid ∉ room.active_players ∧
    (∀ s2 room2, lookupKey s2.rooms rid = some room2 → room2.game_active = true →
        cid ∉ room2.active_players →
        handle_move s2 rid cid choice =
          (s2, [(Dest.client cid,
                 Event.error (some rid) "You are not active in this round" (some cid))])) := by
  have hj := handle_join_admits s rid cid room hlook hcap
  have hins : insertId room.clients cid = room.clients ++ [cid] := if_neg hfresh
  refine ⟨?_, fun rid2 hne => ?_, ?_, fun hmem => hfresh (hsub cid hmem), ?_⟩
  · rw [hj, hins]
    exact lookupKey_insertKey_self _ _ _
  · rw [hj]
    exact lookupKey_insertKey_ne _ _ _ _ hne
  · rw [hj]
  · intro s2 room2 hlook2 hactive2 hnotmem2
    simp only [handle_move, hchoice, hlook2]
    rw [if_neg (by simp [hactive2]), if_pos hnotmem2]

theorem C10_witness :
    ((Room.mk [1, 2] true [] [1, 2]).clients.length < MAX_PLAYERS_PER_ROOM ∧
      3 ∉ (Room.mk [1, 2] true [] [1, 2]).clients) ∧
    lookupKey (handle_join (AppState.mk [("r1", Room.mk [1, 2] true [] [1, 2])] [9])
        "r1" 3).1.rooms ("r1") = some (Room.mk [1, 2, 3] true [] [1, 2]) ∧
    (handle_join (AppState.mk [("r1", Room.mk [1, 2] true [] [1, 2])] [9]) "r1" 3).1.room_watchers =
      [9] ∧
    handle_move (handle_join (AppState.mk [("r1", Room.mk [1, 2] true [] [1, 2])] [9])
        "r1" 3).1 ("r1") 3 ("rock") =
      ((handle_join (AppState.mk [("r1", Room.mk [1, 2] true [] [1, 2])] [9]) "r1" 3).1,
       [(Dest.client 3,
         Event.error (some ("r1")) "You are not active in this round" (some 3))]) := by
  have h := C10_join_active_room (AppState.mk [("r1", Room.mk [1, 2] true [] [1, 2])] [9])
      "r1" 3 (Room.mk [1, 2] true [] [1, 2]) "rock" Move.rock
      (by decide) (by decide) (by decide) (by decide) (by decide) (by decide)
  refine ⟨⟨by decide, by decide⟩, h.1, h.2.2.1, ?_⟩
  exact h.2.2.2.2 _ (Room.mk [1, 2, 3] true [] [1, 2]) h.1 (by decide) (by decide)

/-- C8: a subscriber receives the full census exactly once upon subscribing,
and every operation that changes membership (an admitted join, a disconnect)
hands every registered watcher a census computed from the post-change state
within the same operation. -/
theorem C8_watcher_census (s : AppState) (wid : Nat) (rid : String) (cid : Nat) :
    (handle_subscribe s wid).2 = [(Dest.watcher wid, Event.roomList (roomCensus s))] ∧
    (((lookupKey s.rooms rid).getD emptyRoom).clients.length < MAX_PLAYERS_PER_ROOM →
        ∀ w ∈ s.room_watchers,
          (Dest.watcher w, Event.roomList (roomCensus (handle_join s rid cid).1)) ∈
            (handle_join s rid cid).2) ∧
    (∀ w ∈ s.room_watchers,
        (Dest.watcher w, Event.roomList (roomCensus (handle_disconnect s rid cid).1)) ∈
          (handle_disconnect s rid cid).2) := by
  refine ⟨rfl, fun hcap w hw => ?_, fun w hw => ?_⟩
  · simp only [handle_join]
    rw [if_neg (by omega)]
    exact List.mem_append_right _ (List.mem_map_of_mem _ hw)
  · cases hl : lookupKey s.rooms rid with
    | none =>
      simp only [handle_disconnect, hl]
      exact List.mem_map_of_mem _ hw
    | some room =>
      simp only [handle_disconnect, hl]
      exact List.mem_append_right _ (List.mem_map_of_mem _ hw)

theorem C8_witness :
    (((lookupKey (AppState.mk [("r1", Room.mk [1] false [] [])] [7]).rooms ("r1")).getD
        emptyRoom).clients.length < MAX_PLAYERS_PER_ROOM) ∧
    (handle_subscribe (AppState.mk [("r1", Room.mk [1] false [] [])] [7]) 9).2 =
      [(Dest.watcher 9,
        Event.roomList (roomCensus (AppState.mk [("r1", Room.mk [1] false [] [])] [7])))] ∧
    (Dest.watcher 7,
      Event.roomList
        (roomCensus (handle_join (AppState.mk [("r1", Room.mk [1] false [] [])] [7]) "r1" 2).1)) ∈
      (handle_join (AppState.mk [("r1", Room.mk [1] false [] [])] [7]) "r1" 2).2 ∧
    (Dest.watcher 7,
      Event.roomList
        (roomCensus
          (handle_disconnect (AppState.mk [("r1", Room.mk [1] false [] [])] [7]) "r1" 1).1)) ∈
      (handle_disconnect (AppState.mk [("r1", Room.mk [1] false [] [])] [7]) "r1" 1).2 :=
  ⟨by decide,
    (C8_watcher_census (AppState.mk [("r1", Room.mk [1] false [] [])] [7]) 9 ("r1") 2).1,
    (C8_watcher_census (AppState.mk [("r1", Room.mk [1] false [] [])] [7]) 9 ("r1") 2).2.1
      (by decide) 7 (by decide),
    (C8_watcher_census (AppState.mk [("r1", Room.mk [1] false [] [])] [7]) 9 ("r1") 1).2.2
      7 (by decide)⟩

theorem RoomInv_emptyRoom : RoomInv emptyRoom := by decide

theorem RegistryInv_set {s : AppState} {rid : String} {room : Room} (h : RegistryInv s)
    (hr : RoomInv room) :
    RegistryInv ({ s with rooms := insertKey s.rooms rid room }) := by
  intro p hp
  rcases mem_insertKey.mp hp with hp1 | ⟨hp1, _⟩
  · rw [hp1]
    exact hr
  · exact h p hp1

theorem RegistryInv_erase {s : AppState} {rid : String} (h : RegistryInv s) :
    RegistryInv ({ s with rooms := eraseKey s.rooms rid }) := by
  intro p hp
  exact h p (mem_eraseKey.mp hp).1

theorem RoomInv_addClient {room : Room} (h : RoomInv room) (cid : Nat) :
    RoomInv ({ room with clients := insertId room.clients cid }) := by
  obtain ⟨h1, h2, h3⟩ := h
  refine ⟨h1, fun a ha => ?_, h3⟩
  have hmem := h2 a ha
  unfold insertId
  split
  · exact hmem
  · exact List.mem_append_left _ hmem

theorem RoomInv_insertMove {room : Room} (h : RoomInv room) (sender : Nat) (mv : Move)
    (hmem : sender ∈ room.active_players) (hga : room.game_active = true) :
    RoomInv ({ room with moves := insertKey room.moves sender mv }) := by
  obtain ⟨h1, h2, _⟩ := h
  refine ⟨fun p hp => ?_, h2, by simp [hga]⟩
  rcases mem_insertKey.mp hp with hp1 | ⟨hp1, _⟩
  · rw [hp1]
    exact hmem
  · exact h1 p hp1

theorem multiWinners_subset {active : List Nat} {moves : List (Nat × Move)}
    {winners : List Nat} {snap : List (Nat × Move)}
    (h : compute_round_outcome active moves = Outcome.MultiWinners winners snap) :
    ∀ w ∈ winners, w ∈ active := by
  unfold compute_round_outcome at h
  split at h
  · cases h
  · split at h
    · split at h
      · cases h
      · injection h with h1 h2
        intro w hw
        rw [← h1] at hw
        exact (List.mem_filter.mp hw).1
    · cases h

theorem RegistryInv_applyOutcome (s : AppState) (rid : String) (room : Room)
    (h : RegistryInv s)
    (hsub : ∀ a ∈ room.active_players, a ∈ room.clients)
    (hga : room.game_active = true) :
    RegistryInv (applyOutcome s rid room).1 := by
  unfold applyOutcome
  cases hout : compute_round_outcome room.active_players room.moves with
  | Tie snap =>
    exact RegistryInv_set h ⟨by simp, hsub, by simp [hga]⟩
  | MultiWinners winners snap =>
    exact RegistryInv_set h
      ⟨by simp, fun a ha => hsub a (multiWinners_subset hout a ha), by simp [hga]⟩
  | SingleWinner w snap =>
    exact RegistryInv_set h ⟨by simp, by simp, fun _ => ⟨rfl, rfl⟩⟩

theorem RegistryInv_join (s : AppState) (rid : String) (cid : Nat) (h : RegistryInv s) :
    RegistryInv (handle_join s rid cid).1 := by
  by_cases hcap :
      MAX_PLAYERS_PER_ROOM ≤ ((lookupKey s.rooms rid).getD emptyRoom).clients.length
  · have hj : (handle_join s rid cid).1 = s := by
      simp only [handle_join]
      rw [if_pos hcap]
    rw [hj]
    exact h
  · have hr : RoomInv ((lookupKey s.rooms rid).getD emptyRoom) := by
      cases hl : lookupKey s.rooms rid with
      | none => exact RoomInv_emptyRoom
      | some room => exact h _ (mem_of_lookupKey hl)
    have hj : (handle_join s rid cid).1 =
        { s with rooms := insertKey s.rooms rid ({ (lookupKey s.rooms rid).getD emptyRoom with clients := insertId ((lookupKey s.rooms rid).getD emptyRoom).clients cid }) } := by
      simp only [handle_join]
      rw [if_neg hcap]
    rw [hj]
    exact RegistryInv_set h (RoomInv_addClient hr cid)

theorem RegistryInv_start (s : AppState) (rid : String) (sender : Nat) (h : RegistryInv s) :
    RegistryInv (handle_start s rid sender).1 := by
  cases hl : lookupKey s.rooms rid with
  | none =>
    simp only [handle_start, hl]
    exact h
  | some room =>
    simp only [handle_start, hl]
    by_cases h1 : room.game_active
    · rw [if_pos h1]
      exact h
    · rw [if_neg h1]
      by_cases h2 : room.clients.length < 2
      · rw [if_pos h2]
        exact h
      · rw [if_neg h2]
        exact RegistryInv_set h ⟨by simp, fun a ha => ha, by simp⟩

theorem RegistryInv_move (s : AppState) (rid : String) (sender : Nat) (choice : String)
    (h : RegistryInv s) :
    RegistryInv (handle_move s rid sender choice).1 := by
  cases hp : parseChoice (strToLower choice) with
  | none =>
    simp only [handle_move, hp]
    exact h
  | some mv =>
    cases hl : lookupKey s.rooms rid with
    | none =>
      simp only [handle_move, hp, hl]
      exact h
    | some room =>
      simp only [handle_move, hp, hl]
      by_cases hga : room.game_active = false
      · rw [if_pos hga]
        exact h
      · rw [if_neg hga]
        by_cases hmem : sender ∉ room.active_players
        · rw [if_pos hmem]
          exact h
        · rw [if_neg hmem]
          have hmem2 : sender ∈ room.active_players := not_not.mp hmem
          have hga2 : room.game_active = true := by
            cases hb : room.game_active
            · exact absurd hb hga
            · rfl
          have hroom : RoomInv room := h _ (mem_of_lookupKey hl)
          by_cases hfull :
              (insertKey room.moves sender mv).length = room.active_players.length
          · rw [if_pos hfull]
            exact RegistryInv_applyOutcome s rid _ h hroom.2.1 hga2
          · rw [if_neg hfull]
            exact RegistryInv_set h (RoomInv_insertMove hroom sender mv hmem2 hga2)

theorem RegistryInv_message (s : AppState) (rid : String) (sender : Nat) (msg : Inbound)
    (h : RegistryInv s) :
    RegistryInv (handle_message s rid sender msg).1 := by
  cases msg with
  | raw text =>
    simp only [handle_message]
    cases hl : lookupKey s.rooms rid with
    | none =>
      simp only [handle_raw_text, hl]
      exact h
    | some room =>
      simp only [handle_raw_text, hl]
      exact h
  | cmd action choice =>
    simp only [handle_message]
    by_cases h1 : strToLower action = "start" ∨ strToLower action = "start_game"
    · rw [if_pos h1]
      exact RegistryInv_start s rid sender h
    · rw [if_neg h1]
      by_cases h2 : strToLower action = "move"
      · rw [if_pos h2]
        exact RegistryInv_move s rid sender (choice.getD ("")) h
      · rw [if_neg h2]
        exact h

theorem RegistryInv_disconnect (s : AppState) (rid : String) (cid : Nat) (h : RegistryInv s) :
    RegistryInv (handle_disconnect s rid cid).1 := by
  cases hl : lookupKey s.rooms rid with
  | none =>
    simp only [handle_disconnect, hl]
    exact h
  | some room =>
    simp only [handle_disconnect, hl]
    by_cases he : (eraseId room.clients cid).isEmpty
    · rw [if_pos he]
      exact RegistryInv_erase h
    · rw [if_neg he]
      by_cases hga : room.game_active
      · rw [if_pos hga]
        exact RegistryInv_set h ⟨by simp, by simp, fun _ => ⟨rfl, rfl⟩⟩
      · rw [if_neg hga]
        have hroom : RoomInv room := h _ (mem_of_lookupKey hl)
        have hempty := hroom.2.2
          (by cases hb : room.game_active with
              | false => rfl
              | true => exact absurd hb hga)
        refine RegistryInv_set h ⟨?_, ?_, fun _ => ⟨hempty.1, hempty.2⟩⟩
        · rw [hempty.1]
          simp
        · rw [hempty.2]
          simp

/-- C3: the registry invariant — move keys are active players, active players
are room clients, and an idle room has no moves and no active players — holds
after any lock-protected operation (join, message dispatch including start,
move submission and resolution, disconnect cleanup, watcher register and
unregister) whenever it held before. -/
theorem C3_registry_invariant (s s' : AppState) (hInv : RegistryInv s) (hstep : Step s s') :
    RegistryInv s' := by
  cases hstep with
  | join rid cid => exact RegistryInv_join _ rid cid hInv
  | message rid sender msg => exact RegistryInv_message _ rid sender msg hInv
  | disconnect rid cid => exact RegistryInv_disconnect _ rid cid hInv
  | subscribe wid => exact hInv
  | unsubscribe wid => exact hInv

theorem C3_witness :
    RegistryInv (AppState.mk [("r1", Room.mk [1, 2] true [(1, Move.rock)] [1, 2])] []) ∧
    RegistryInv
      (handle_join (AppState.mk [("r1", Room.mk [1, 2] true [(1, Move.rock)] [1, 2])] [])
        "r1" 3).1 :=
  ⟨by decide,
    C3_registry_invariant _ _ (by decide)
      (Step.join (AppState.mk [("r1", Room.mk [1, 2] true [(1, Move.rock)] [1, 2])] []) "r1" 3)⟩

/-- C9: the claim that no registry operation awaits network I/O while the
exclusive registry section is held is false of the code: the
capacity-rejection path of the join operation awaits two WebSocket sends,
and the watcher initial snapshot awaits one, while the registry guard is
held. -/
theorem C9_counterexample : ¬ (∀ p ∈ lockedSections, hasNetAwait p.2 = false) := by
  decide

/-- C9 amended: every acquisition of the registry lock other than the join
capacity-rejection path and the watcher initial-snapshot read performs no
awaited network send while the guard is held; the sends performed under the
guard are non-blocking unbounded-queue pushes. -/
theorem C9_no_net_await_amended :
    ∀ p ∈ lockedSections,
      p.1 ≠ "join_room capacity rejection" →
      p.1 ≠ "rooms_stream initial snapshot" →
      hasNetAwait p.2 = false := by
  decide

theorem C9_witness :
    (("join_room move command") ≠ "join_room capacity rejection" ∧
      ("join_room move command") ≠ "rooms_stream initial snapshot") ∧
    hasNetAwait moveSteps = false :=
  ⟨⟨by decide, by decide⟩,
    C9_no_net_await_amended (("join_room move command"), moveSteps) (by decide) (by decide)
      (by decide)⟩
